import Mathlib

/-!
Verification of the Islet trust-boundary layer against its specification.

The development shallowly embeds the Rust sources:
  * `src/lib/safe-abstraction/src/lib.rs` — the verified-address-access
    framework (`raw_ptr::assume`, the `SafetyChecked` / `SafetyAssured`
    capability traits, and the `SafetyAssumed` token);
  * `src/rmm/src/rsi/hostcall.rs` — the `HostCall` overlay, its layout and
    its capability implementations;
  * `src/rmm/src/rsi/ripas.rs` — the RIPAS get/set/complete handlers.

Machine integers are embedded as `Nat` with explicit truncation (`% 256`)
where the source performs a narrowing cast; fallible Rust code returns
`Except`; mutation of `&mut` state is explicit state passing.  External
collaborators that live outside the embedded files (the granule ownership
oracle, per-vCPU register accessors, address-range validators and the
platform constants) are modelled from the specification; each such
definition is marked in its doc comment.
-/

namespace SafeAbstraction

/-- Size (and alignment) in bytes of `usize` on the aarch64 target:
`core::mem::align_of::<usize>()`. -/
def USIZE_ALIGN : Nat := 8

/-- `SafetyChecked::is_not_null` (trait-default body in lib.rs): the raw
pointer at `addr` is null exactly when the address is zero. -/
def is_not_null (addr : Nat) : Bool := addr != 0

/-- `SafetyChecked::is_aligned` (trait-default body in lib.rs):
`self.addr() % core::mem::align_of::<usize>() == 0`. -/
def is_aligned (addr : Nat) : Bool := addr % USIZE_ALIGN == 0

/-- The type-specific capability methods an overlay type `T` supplies to
`raw_ptr::assume`: `SafetyChecked::has_permission` and the three
`SafetyAssured` methods `initialized` / `lifetime` / `ownership`
(lib.rs lines 82 and 100-104).  Each is a function of the candidate
address, the only datum the temporarily materialized `&T` carries that the
checks may consult. -/
structure Overlay where
  has_permission : Nat → Bool
  initialized : Nat → Bool
  lifetime : Nat → Bool
  ownership : Nat → Bool

/-- `raw_ptr::SafetyAssumed`: the verified token, wrapping only the
address. -/
structure SafetyAssumed where
  addr : Nat
deriving DecidableEq

/-- `raw_ptr::assume::<T>` (lib.rs lines 106-119): evaluate the checked
conjunction and the assured conjunction, and wrap the address in a
`SafetyAssumed` token exactly when both are true. -/
def assume (T : Overlay) (addr : Nat) : Option SafetyAssumed :=
  let checked := is_not_null addr && is_aligned addr && T.has_permission addr
  let assured := T.initialized addr && T.lifetime addr && T.ownership addr
  match checked && assured with
  | true => some { addr := addr }
  | false => none

/-- The six checks `assume` may invoke, in source order. -/
inductive Check where
  | notNull
  | aligned
  | hasPermission
  | initialized
  | lifetime
  | ownership
deriving DecidableEq

/-- Instrumented `raw_ptr::assume`: the same computation, additionally
returning the list of checks that are actually invoked, following Rust's
evaluation order for
`let checked = ref_.is_not_null() && ref_.is_aligned() && ref_.has_permission();`
`let assured = ref_.initialized() && ref_.lifetime() && ref_.ownership();`
— both `let` statements execute, and within each statement `&&` evaluates
its right operand only when the left operand is `true`. -/
def assumeTrace (T : Overlay) (addr : Nat) : Option SafetyAssumed × List Check :=
  let log : List Check := [Check.notNull]
  let b1 := is_not_null addr
  let log := if b1 then log ++ [Check.aligned] else log
  let b2 := b1 && is_aligned addr
  let log := if b2 then log ++ [Check.hasPermission] else log
  let checked := b2 && T.has_permission addr
  let log := log ++ [Check.initialized]
  let b4 := T.initialized addr
  let log := if b4 then log ++ [Check.lifetime] else log
  let b5 := b4 && T.lifetime addr
  let log := if b5 then log ++ [Check.ownership] else log
  let assured := b5 && T.ownership addr
  (match checked && assured with
   | true => some { addr := addr }
   | false => none, log)

/-- An overlay whose four type-specific checks all hold everywhere (the
shape of `HostCall`-like implementers under a permissive oracle); a
concrete instantiation point for the generic theorems. -/
def allTrue : Overlay :=
  { has_permission := fun _ => true
    initialized := fun _ => true
    lifetime := fun _ => true
    ownership := fun _ => true }

end SafeAbstraction

namespace Rmm

/-- `rmi::error::Error`, restricted to the variants this subsystem
produces: `Error::RmiErrorInput` from `HostCall::set_gpr`, and an abstract
variant standing for any failure of an external accessor. -/
inductive Error where
  | RmiErrorInput
  | Other
deriving DecidableEq

/-- Modelled from the spec: `GRANULE_SIZE`, the fundamental granule size,
defined in `src/rmm/src/granule` (not under `src/`).  The spec gives
4096 bytes for the specification version this tree tracks, and the
build assertion `const_assert_eq!(size_of::<HostCall>(), GRANULE_SIZE)`
together with the 4096-byte `HostCall` layout pins the same value. -/
def GRANULE_SIZE : Nat := 4096

/-- `HOST_CALL_NR_GPRS` (hostcall.rs line 5). -/
def HOST_CALL_NR_GPRS : Nat := 7

/-- `PADDING` (hostcall.rs line 6): the two padding-region sizes. -/
def PADDING : List Nat := [6, 4032]

/-- Size and alignment, in bytes, of one field of a `#[repr(C)]` struct. -/
structure CField where
  size : Nat
  align : Nat
deriving DecidableEq

/-- Round `off` up to the next multiple of `a`. -/
def alignUp (off a : Nat) : Nat := (off + a - 1) / a * a

/-- Offset just past the last field when the fields are laid out in order
by the C layout algorithm (each field placed at its alignment). -/
def fieldsEnd (fs : List CField) : Nat :=
  fs.foldl (fun off f => alignUp off f.align + f.size) 0

/-- Alignment of a `#[repr(C)]` struct: the maximal field alignment. -/
def structAlign (fs : List CField) : Nat :=
  fs.foldl (fun m f => max m f.align) 1

/-- `core::mem::size_of` for a `#[repr(C)]` struct: the end of the last
field rounded up to the struct alignment. -/
def reprCSize (fs : List CField) : Nat := alignUp (fieldsEnd fs) (structAlign fs)

/-- The byte offset of each field of a `#[repr(C)]` struct. -/
def fieldOffsets (fs : List CField) : List Nat :=
  (fs.foldl (fun (acc : List Nat × Nat) f =>
    let off := alignUp acc.2 f.align
    (acc.1 ++ [off], off + f.size)) ([], 0)).1

/-- A `u16` field (size 2, alignment 2 on aarch64). -/
def u16Field : CField := { size := 2, align := 2 }

/-- A `[u8; n]` field. -/
def u8Array (n : Nat) : CField := { size := n, align := 1 }

/-- A `[u64; n]` field (element size and alignment 8 on aarch64). -/
def u64Array (n : Nat) : CField := { size := 8 * n, align := 8 }

/-- The field list of `#[repr(C)] struct HostCall` (hostcall.rs lines
8-14): `imm: u16`, `padding0: [u8; PADDING[0]]`,
`gprs: [u64; HOST_CALL_NR_GPRS]`, `padding1: [u8; PADDING[1]]`. -/
def hostCallFields : List CField :=
  [u16Field, u8Array (PADDING.getD 0 0), u64Array HOST_CALL_NR_GPRS,
    u8Array (PADDING.getD 1 0)]

/-- Modelled from the spec: the granule-ownership states of the external
granule state machine ("unassigned, delegated-to-realm, realm-data,
realm-translation-table, …"); only `Data` (realm-data) matters here. -/
inductive GranuleState where
  | Undelegated
  | Delegated
  | Data
  | RTT
  | Rec
deriving DecidableEq

/-- `2 ^ 64`: one past the largest `usize` value on the target. -/
def U64_LIMIT : Nat := 2 ^ 64

/-- The 64-bit value of `!(GRANULE_SIZE - 1)`: all mask bits above the
granule-offset bits. -/
def GRANULE_MASK_NOT : Nat := U64_LIMIT - GRANULE_SIZE

/-- `self.addr() & !(GRANULE_SIZE - 1)` (hostcall.rs line 49). -/
def align_down (addr : Nat) : Nat := Nat.land addr GRANULE_MASK_NOT

/-- `SafetyChecked::has_permission` for `HostCall` (hostcall.rs lines
47-51): round the address down to its granule boundary and ask the
ownership oracle whether that granule is in the `Data` state.
`get_granule_if!(align_down, GranuleState::Data).is_ok()` is modelled
from the spec as a pure query of the total external oracle
`state_of : address → GranuleState` (spec §6), succeeding exactly when
the state is `Data`. -/
def hostCall_has_permission (state_of : Nat → GranuleState) (addr : Nat) : Bool :=
  state_of (align_down addr) == GranuleState.Data

/-- The method names the `SafetyAssured` trait requires
(lib.rs lines 100-104). -/
def safetyAssuredTraitMethods : List String :=
  ["initialized", "lifetime", "ownership"]

/-- The method names the `impl SafetyAssured for HostCall` block actually
provides (hostcall.rs lines 54-74). -/
def hostCallSafetyAssuredMethods : List String :=
  ["is_initialized", "verify_ownership"]

/-- Body of `HostCall::is_initialized` (hostcall.rs lines 55-60):
unconditionally `true`, justified by RMM Specification A2.2.4 Granule
Wiping. -/
def hostCall_is_initialized : Bool := true

/-- Body of `HostCall::verify_ownership` (hostcall.rs lines 62-73):
unconditionally `true`, justified by the SMC hand-off protocol. -/
def hostCall_verify_ownership : Bool := true

/-- The data-carrying fields of `HostCall` (the two padding arrays carry
no information).  `gprs` is the bounded register-slot array. -/
structure HostCall where
  imm : Nat
  gprs : Fin HOST_CALL_NR_GPRS → Nat

/-- `HostCall::set_gpr` (hostcall.rs lines 21-28): reject an out-of-bounds
index with `Error::RmiErrorInput` leaving the record unchanged, otherwise
store `val` into slot `idx`.  The `&mut self` receiver is modelled by
returning the (possibly updated) record next to the `Result`. -/
def HostCall.set_gpr (h : HostCall) (idx val : Nat) : HostCall × Except Error Unit :=
  if HOST_CALL_NR_GPRS ≤ idx then
    (h, Except.error Error.RmiErrorInput)
  else
    ({ h with gprs := fun j => if j.val = idx then val else h.gprs j },
      Except.ok ())

/-- `HostCall::imm` (hostcall.rs lines 30-32). -/
def HostCall.get_imm (h : HostCall) : Nat := h.imm

end Rmm

namespace Rmm.Ripas

/-- Modelled from the spec: `rsi::SUCCESS`, the RSI success result code
written into vCPU register 0 (platform-defined numeric value; the claims
use it only symbolically). -/
def rsiSUCCESS : Nat := 0

/-- Modelled from the spec: `rsi::ERROR_INPUT`, the RSI input-error result
code written into vCPU register 0. -/
def rsiERROR_INPUT : Nat := 1

/-- Modelled from the spec: `rmi::SUCCESS`, the RMI-level success code
placed in `ret[0]`. -/
def rmiSUCCESS : Nat := 0

/-- Modelled from the spec: `rmi::SUCCESS_REC_ENTER`, the REC-enter
success code placed in `ret[0]` when the REC is to be re-entered. -/
def rmiSUCCESS_REC_ENTER : Nat := 10

/-- Modelled from the spec: `rmi::EXIT_RIPAS_CHANGE`, the exit-reason code
for a RIPAS change request. -/
def rmiEXIT_RIPAS_CHANGE : Nat := 3

/-- Modelled from the spec: `invalid_ripas::EMPTY`, one of the two
accepted RIPAS values. -/
def RIPAS_EMPTY : Nat := 0

/-- Modelled from the spec: `invalid_ripas::RAM`, the other accepted RIPAS
value. -/
def RIPAS_RAM : Nat := 1

/-- Modelled from the spec: `REC_ENTRY_FLAG_RIPAS_RESPONSE`, the single
entry-flag bit by which the host rejects a RIPAS change. -/
def REC_ENTRY_FLAG_RIPAS_RESPONSE : Nat := 2

/-- Modelled from the spec: `RTT_PAGE_LEVEL`, the page-granularity
translation-table level passed to the RIPAS query. -/
def RTT_PAGE_LEVEL : Nat := 3

/-- Modelled from the spec: `is_granule_aligned` — the address is a
multiple of the granule size. -/
def is_granule_aligned (addr : Nat) : Bool := addr % GRANULE_SIZE == 0

/-- `is_ripas_valid` (ripas.rs lines 109-114): the requested state is one
of the two accepted values. -/
def is_ripas_valid (ripas : Nat) : Bool :=
  ripas == RIPAS_EMPTY || ripas == RIPAS_RAM

/-- Modelled from the spec: the per-vCPU register file of the `(realm,
vcpu)` pair in play, behind the fallible accessors `get_reg` / `set_reg`
(spec §6: index range and identity validity are the callee's
responsibility, so success is an abstract predicate on the index). -/
structure Regs where
  val : Nat → Nat
  readable : Nat → Bool
  writable : Nat → Bool

/-- Modelled from the spec: `get_reg(realmid, vcpuid, idx)`. -/
def get_reg (r : Regs) (idx : Nat) : Except Error Nat :=
  if r.readable idx then Except.ok (r.val idx) else Except.error Error.Other

/-- Modelled from the spec: `set_reg(realmid, vcpuid, idx, v)`. -/
def set_reg (r : Regs) (idx v : Nat) : Except Error Regs :=
  if r.writable idx then
    Except.ok { r with val := fun j => if j == idx then v else r.val j }
  else
    Except.error Error.Other

/-- Modelled from the spec: the slice of the execution-context (`Rec`)
record the RIPAS handlers touch — identity, the guest's IPA width, and
the pending RIPAS range/state/flags recorded by `rec.set_ripas`. -/
structure Rec where
  vcpuid : Nat
  realmid : Nat
  ipa_bits : Nat
  ripas_addr : Nat
  ripas_end : Nat
  ripas_state : Nat
  ripas_flags : Nat

/-- Modelled from the spec: `rec.set_ripas(start, end, state, flags)` —
record the pending range (the progress address starting at `start`),
state and flags on the execution context. -/
def Rec.set_ripas (rec : Rec) (start stop state flags : Nat) : Rec :=
  { rec with ripas_addr := start, ripas_end := stop,
             ripas_state := state, ripas_flags := flags }

/-- Modelled from the spec: the slice of the `Run` record the RIPAS
handlers touch — the exit reason, the exit RIPAS range/state written by
`run.set_ripas`, and the host-provided entry flags. -/
structure Run where
  exit_reason : Nat
  ripas_addr : Nat
  ripas_end : Nat
  ripas_state : Nat
  entry_flags : Nat

/-- Modelled from the spec: `run.set_exit_reason(r)`. -/
def Run.set_exit_reason (run : Run) (r : Nat) : Run :=
  { run with exit_reason := r }

/-- Modelled from the spec: `run.set_ripas(start, end, state)`. -/
def Run.set_ripas (run : Run) (start stop state : Nat) : Run :=
  { run with ripas_addr := start, ripas_end := stop, ripas_state := state }

/-- Modelled from the spec: the external collaborators of the RIPAS
handlers — the protected-range validators and the page-table RIPAS
query (spec §6), abstract functions of their source arguments. -/
structure Ext where
  validate_ipa_ok : Nat → Nat → Bool
  is_protected_ipa : Nat → Nat → Bool
  rtt_get_ripas : Nat → Nat → Nat → Except Error Nat

/-- `get_ripas_state` (ripas.rs lines 12-58).  Returns the updated
register file and the value stored into `ret[0]`.  A failing `set_reg`
is only logged (`warn!`) and leaves the registers unchanged. -/
def get_ripas_state (ext : Ext) (regs : Regs) (rec : Rec) :
    Except Error (Regs × Nat) := do
  let ipa_page ← get_reg regs 1
  if !ext.validate_ipa_ok ipa_page rec.ipa_bits then
    let regs := match set_reg regs 0 rsiERROR_INPUT with
      | Except.ok r => r
      | Except.error _ => regs
    return (regs, rmiSUCCESS_REC_ENTER)
  let ripas ← ext.rtt_get_ripas rec.realmid ipa_page RTT_PAGE_LEVEL
  let regs := match set_reg regs 0 rsiSUCCESS with
    | Except.ok r => r
    | Except.error _ => regs
  let regs := match set_reg regs 1 ripas with
    | Except.ok r => r
    | Except.error _ => regs
  return (regs, rmiSUCCESS_REC_ENTER)

/-- `set_ripas_state` (ripas.rs lines 60-107).  Returns the updated
register file, execution context, run record and the value stored into
`ret[0]`.  `as u8` on the requested state is the truncation `% 256`. -/
def set_ripas_state (ext : Ext) (regs : Regs) (rec : Rec) (run : Run) :
    Except Error (Regs × Rec × Run × Nat) := do
  let ipa_start ← get_reg regs 1
  let ipa_end ← get_reg regs 2
  let reg3 ← get_reg regs 3
  let ipa_state := reg3 % 256
  let flags ← get_reg regs 4
  if ipa_end ≤ ipa_start then
    let regs ← set_reg regs 0 rsiERROR_INPUT
    return (regs, rec, run, rmiSUCCESS_REC_ENTER)
  if !is_granule_aligned ipa_start || !is_granule_aligned ipa_end
      || !is_ripas_valid ipa_state || decide (ipa_end ≤ ipa_start)
      || !ext.is_protected_ipa ipa_start rec.ipa_bits
      || !ext.is_protected_ipa (ipa_end - 1) rec.ipa_bits then
    let regs ← set_reg regs 0 rsiERROR_INPUT
    return (regs, rec, run, rmiSUCCESS_REC_ENTER)
  let run := (run.set_exit_reason rmiEXIT_RIPAS_CHANGE).set_ripas
    ipa_start ipa_end ipa_state
  let rec' := rec.set_ripas ipa_start ipa_end ipa_state flags
  return (regs, rec', run, rmiSUCCESS)

/-- `complete_ripas` (ripas.rs lines 116-131).  Returns the updated
register file and execution context; the `Run` record is read-only
(`entry_flags`). -/
def complete_ripas (regs : Regs) (rec : Rec) (run : Run) :
    Except Error (Regs × Rec) := do
  let ripas_addr := rec.ripas_addr
  if rec.ripas_end > 0 then
    let regs ← set_reg regs 0 rsiSUCCESS
    let regs ← set_reg regs 1 ripas_addr
    let flags := run.entry_flags
    let regs ←
      if Nat.land flags REC_ENTRY_FLAG_RIPAS_RESPONSE != 0 then
        set_reg regs 2 1
      else
        set_reg regs 2 0
    return (regs, rec.set_ripas 0 0 0 0)
  return (regs, rec)

/-- A fully accessible register file holding the given values. -/
def mkRegs (v : Nat → Nat) : Regs :=
  { val := v, readable := fun _ => true, writable := fun _ => true }

/-- Concrete register file: all registers zero. -/
def regsZero : Regs := mkRegs (fun _ => 0)

/-- Concrete register file carrying a valid RIPAS-set request:
start 4096, end 8192, state RAM, flags 0. -/
def regsValidSet : Regs :=
  mkRegs (fun i => if i == 1 then 4096 else if i == 2 then 8192
    else if i == 3 then 1 else 0)

/-- Concrete register file on which every write fails. -/
def regsReadOnly : Regs := { regsZero with writable := fun _ => false }

/-- Concrete execution context with no pending RIPAS range. -/
def recBase : Rec :=
  { vcpuid := 0, realmid := 0, ipa_bits := 52, ripas_addr := 0,
    ripas_end := 0, ripas_state := 0, ripas_flags := 0 }

/-- Concrete execution context with a pending RIPAS range. -/
def recPending : Rec :=
  { recBase with ripas_addr := 4096, ripas_end := 8192, ripas_state := 1 }

/-- Concrete run record with all fields zero. -/
def runBase : Run :=
  { exit_reason := 0, ripas_addr := 0, ripas_end := 0, ripas_state := 0,
    entry_flags := 0 }

/-- Concrete externals accepting every address. -/
def extAccept : Ext :=
  { validate_ipa_ok := fun _ _ => true, is_protected_ipa := fun _ _ => true,
    rtt_get_ripas := fun _ _ _ => Except.ok 1 }

/-- Concrete externals whose IPA validation rejects every address. -/
def extReject : Ext := { extAccept with validate_ipa_ok := fun _ _ => false }

end Rmm.Ripas

namespace SafeAbstraction

/-- The instrumented evaluator computes the same result as `assume`. -/
theorem assumeTrace_fst (T : Overlay) (addr : Nat) :
    (assumeTrace T addr).1 = assume T addr := by
  unfold assumeTrace assume
  cases h1 : is_not_null addr <;>
    cases h2 : is_aligned addr <;>
      cases h3 : T.initialized addr <;>
        cases h4 : T.lifetime addr <;> simp

/-- C1: `assume::<T>` returns `Some` token wrapping exactly the given
address when the six checks (not-null, word-aligned, `has_permission`,
`initialized`, `lifetime`, `ownership`) are all true, returns `None` when
any of them is false, and whenever it returns a token the address was
non-zero, word-aligned and accepted by `T`'s permission binding. -/
theorem assume_checks_iff (T : Overlay) (addr : Nat) :
    ((is_not_null addr && is_aligned addr && T.has_permission addr
        && T.initialized addr && T.lifetime addr && T.ownership addr) = true →
      assume T addr = some { addr := addr })
    ∧ ((is_not_null addr && is_aligned addr && T.has_permission addr
        && T.initialized addr && T.lifetime addr && T.ownership addr) = false →
      assume T addr = none)
    ∧ (∀ tok, assume T addr = some tok →
        tok.addr = addr ∧ addr ≠ 0 ∧ addr % USIZE_ALIGN = 0
          ∧ T.has_permission addr = true) := by
  unfold assume
  cases h1 : is_not_null addr <;>
    cases h2 : is_aligned addr <;>
      cases h3 : T.has_permission addr <;>
        cases h4 : T.initialized addr <;>
          cases h5 : T.lifetime addr <;>
            cases h6 : T.ownership addr <;>
              simp_all [is_not_null, is_aligned]

/-- C1 witness: at address 8 with an overlay accepting everything, all
six checks hold and a token for address 8 is produced. -/
theorem assume_checks_iff_witness :
    assume allTrue 8 = some { addr := 8 } :=
  (assume_checks_iff allTrue 8).1 (by decide)

/-- C2 counterexample: at the null address (with an overlay whose own
checks all hold), the alignment check is never run — `&&`
short-circuits, so not all six checks are evaluated on every call. -/
theorem assume_short_circuit_counterexample :
    ¬ Check.aligned ∈ (assumeTrace allTrue 0).2 := by decide

/-- C2 (amended): on every call both check groups are computed — the
not-null check and the `initialized` check always run, in particular the
developer-asserted group runs even when a checked-group check already
failed — but within each group `&&` short-circuits: `is_aligned` runs
iff not-null passed, `has_permission` iff not-null and aligned passed,
`lifetime` iff `initialized` passed, and `ownership` iff `initialized`
and `lifetime` passed. -/
theorem assumeTrace_evaluated_checks (T : Overlay) (addr : Nat) :
    (assumeTrace T addr).2.contains Check.notNull = true
    ∧ (assumeTrace T addr).2.contains Check.initialized = true
    ∧ (assumeTrace T addr).2.contains Check.aligned = is_not_null addr
    ∧ (assumeTrace T addr).2.contains Check.hasPermission
        = (is_not_null addr && is_aligned addr)
    ∧ (assumeTrace T addr).2.contains Check.lifetime = T.initialized addr
    ∧ (assumeTrace T addr).2.contains Check.ownership
        = (T.initialized addr && T.lifetime addr) := by
  unfold assumeTrace
  cases h1 : is_not_null addr <;>
    cases h2 : is_aligned addr <;>
      cases h3 : T.initialized addr <;>
        cases h4 : T.lifetime addr <;>
          simp [h1, h2, h3, h4, List.contains]

end SafeAbstraction

namespace Rmm

/-- C3: the `HostCall` overlay occupies exactly one granule: 2-byte
discriminant at offset 0, 6 bytes of padding at offset 2, seven 8-byte
register slots at offset 8, 4032 bytes of trailing padding at offset 64,
for a total `#[repr(C)]` size of 4096 = `GRANULE_SIZE`; this is the
equality the build-failing `const_assert_eq!` checks. -/
theorem hostCall_layout :
    reprCSize hostCallFields = GRANULE_SIZE
    ∧ GRANULE_SIZE = 4096
    ∧ fieldOffsets hostCallFields = [0, 2, 8, 64]
    ∧ hostCallFields = [{ size := 2, align := 2 }, { size := 6, align := 1 },
        { size := 56, align := 8 }, { size := 4032, align := 1 }] := by
  decide

/-- Masking a 64-bit value with the granule mask rounds it down to a
multiple of the granule size. -/
theorem land_mask_eq_sub_mod (a : Nat) (ha : a < 2 ^ 64) :
    a &&& (2 ^ 64 - 2 ^ 12) = a - a % 2 ^ 12 := by
  have hmask : (2 : Nat) ^ 64 - 2 ^ 12 = (2 ^ 52 - 1) <<< 12 := by
    rw [Nat.shiftLeft_eq]; norm_num
  have h4096 : (2 : Nat) ^ 12 = 4096 := by norm_num
  have hrhs : a - a % 2 ^ 12 = (a >>> 12) <<< 12 := by
    rw [Nat.shiftRight_eq_div_pow, Nat.shiftLeft_eq, h4096]
    omega
  rw [hmask, hrhs]
  apply Nat.eq_of_testBit_eq
  intro i
  rw [Nat.testBit_land, Nat.testBit_shiftLeft, Nat.testBit_shiftLeft,
    Nat.testBit_shiftRight, Nat.testBit_two_pow_sub_one]
  by_cases h12 : 12 ≤ i
  · have hi : 12 + (i - 12) = i := by omega
    rw [hi]
    by_cases h64 : i < 64
    · simp [h12, show i - 12 < 52 by omega]
    · have hbit : a.testBit i = false :=
        Nat.testBit_lt_two_pow
          (lt_of_lt_of_le ha (Nat.pow_le_pow_right (by norm_num) (by omega)))
      simp [hbit]
  · simp [h12]

end Rmm

namespace Rmm

/-- C4: `HostCall::has_permission` returns `true` exactly when the
ownership oracle reports the realm-data (`Data`) state for the address
masked with `!(GRANULE_SIZE - 1)`; for any 64-bit address that mask is
precisely rounding down to the enclosing granule boundary.  The check is
a pure query of the oracle. -/
theorem hostCall_has_permission_iff (state_of : Nat → GranuleState) (addr : Nat) :
    (hostCall_has_permission state_of addr = true
      ↔ state_of (Nat.land addr GRANULE_MASK_NOT) = GranuleState.Data)
    ∧ (addr < U64_LIMIT → align_down addr = addr - addr % GRANULE_SIZE) := by
  constructor
  · simp [hostCall_has_permission, align_down]
  · intro h
    have h12 : (2 : Nat) ^ 12 = GRANULE_SIZE := by norm_num [GRANULE_SIZE]
    have := land_mask_eq_sub_mod addr (by simpa [U64_LIMIT] using h)
    simpa [align_down, GRANULE_MASK_NOT, U64_LIMIT, h12, HAnd.hAnd, AndOp.and]
      using this

/-- C4 witness: with an oracle that owns everything as realm data, the
address 4104 (granule 4096 plus offset 8) has permission, and its
align-down is 4096. -/
theorem hostCall_has_permission_iff_witness :
    hostCall_has_permission (fun _ => GranuleState.Data) 4104 = true
    ∧ align_down 4104 = 4104 - 4104 % GRANULE_SIZE :=
  ⟨((hostCall_has_permission_iff (fun _ => GranuleState.Data) 4104).1).mpr rfl,
    (hostCall_has_permission_iff (fun _ => GranuleState.Data) 4104).2
      (by norm_num [U64_LIMIT])⟩

/-- C5 (divergence witness): the two methods the
`impl SafetyAssured for HostCall` block provides are unconditionally
`true`, but the block provides `is_initialized` / `verify_ownership`
while the `SafetyAssured` trait of lib.rs requires `initialized` /
`lifetime` / `ownership` — in particular no `lifetime` assertion is
implemented, contradicting the trait declaration of the same tree. -/
theorem hostCall_safety_assured_mismatch :
    hostCall_is_initialized = true
    ∧ hostCall_verify_ownership = true
    ∧ "lifetime" ∈ safetyAssuredTraitMethods
    ∧ "lifetime" ∉ hostCallSafetyAssuredMethods
    ∧ safetyAssuredTraitMethods ≠ hostCallSafetyAssuredMethods := by
  decide

/-- C10: `HostCall::set_gpr` fails with `Error::RmiErrorInput` and leaves
the record unchanged exactly when the index reaches
`HOST_CALL_NR_GPRS`; below the bound it stores the value in slot `idx`,
returns `Ok`, and leaves `imm` and every other slot unchanged. -/
theorem set_gpr_spec (h : HostCall) (idx val : Nat) :
    (HOST_CALL_NR_GPRS ≤ idx →
      h.set_gpr idx val = (h, Except.error Error.RmiErrorInput))
    ∧ (idx < HOST_CALL_NR_GPRS →
      (h.set_gpr idx val).2 = Except.ok ()
      ∧ (h.set_gpr idx val).1.imm = h.imm
      ∧ ∀ j : Fin HOST_CALL_NR_GPRS,
          (h.set_gpr idx val).1.gprs j = if j.val = idx then val else h.gprs j) := by
  constructor
  · intro hge
    simp [HostCall.set_gpr, hge]
  · intro hlt
    have hn : ¬ HOST_CALL_NR_GPRS ≤ idx := by omega
    simp [HostCall.set_gpr, hn]

/-- C10 witness: on a concrete record, index 9 is rejected with the
input-error code and index 3 is accepted. -/
theorem set_gpr_spec_witness :
    (({ imm := 5, gprs := fun _ => 0 } : HostCall).set_gpr 9 77
      = ({ imm := 5, gprs := fun _ => 0 }, Except.error Error.RmiErrorInput))
    ∧ (({ imm := 5, gprs := fun _ => 0 } : HostCall).set_gpr 3 77).2
      = Except.ok () :=
  ⟨(set_gpr_spec { imm := 5, gprs := fun _ => 0 } 9 77).1 (by decide),
    ((set_gpr_spec { imm := 5, gprs := fun _ => 0 } 3 77).2 (by decide)).1⟩

end Rmm

namespace Rmm.Ripas

/-- C6: when any of the read inputs of the RIPAS set handler is invalid —
empty range, misaligned start or end, a state other than EMPTY/RAM, or a
range not entirely inside the protected region — the handler writes the
input-error code into vCPU register 0, returns `Ok` with `ret[0]` the
REC-enter success code, and leaves the pending-RIPAS state of the
execution context and the run record untouched. -/
theorem set_ripas_state_rejects_invalid (ext : Ext) (regs regs' : Regs)
    (rec : Rec) (run : Run) (s e g3 fl : Nat)
    (h1 : get_reg regs 1 = Except.ok s) (h2 : get_reg regs 2 = Except.ok e)
    (h3 : get_reg regs 3 = Except.ok g3) (h4 : get_reg regs 4 = Except.ok fl)
    (hset : set_reg regs 0 rsiERROR_INPUT = Except.ok regs')
    (hbad : e ≤ s ∨ is_granule_aligned s = false ∨ is_granule_aligned e = false
      ∨ is_ripas_valid (g3 % 256) = false
      ∨ ext.is_protected_ipa s rec.ipa_bits = false
      ∨ ext.is_protected_ipa (e - 1) rec.ipa_bits = false) :
    set_ripas_state ext regs rec run
      = Except.ok (regs', rec, run, rmiSUCCESS_REC_ENTER)
    ∧ regs'.val 0 = rsiERROR_INPUT := by
  have hval : regs'.val 0 = rsiERROR_INPUT := by
    unfold set_reg at hset
    cases hw : regs.writable 0 <;> rw [hw] at hset <;> simp at hset
    rw [← hset]
    simp
  refine ⟨?_, hval⟩
  by_cases hle : e ≤ s
  · simp [set_ripas_state, h1, h2, h3, h4, hset, hle, Bind.bind, Except.bind,
      Pure.pure, Except.pure]
  · rcases hbad with hb | hb | hb | hb | hb | hb
    · omega
    all_goals
      simp [set_ripas_state, h1, h2, h3, h4, hset, hle, hb,
        Bind.bind, Except.bind, Pure.pure, Except.pure]

/-- C6 witness: with all registers zero the range is empty, so the
handler rejects, stores the input-error code in register 0, reports the
REC-enter success code, and leaves `rec` and `run` untouched. -/
theorem set_ripas_state_rejects_invalid_witness :
    set_ripas_state extAccept regsZero recBase runBase
      = Except.ok
        ({ regsZero with
            val := fun j => if j == 0 then rsiERROR_INPUT else regsZero.val j },
          recBase, runBase, rmiSUCCESS_REC_ENTER) :=
  (set_ripas_state_rejects_invalid extAccept regsZero
    { regsZero with
        val := fun j => if j == 0 then rsiERROR_INPUT else regsZero.val j }
    recBase runBase 0 0 0 0 rfl rfl rfl rfl rfl (Or.inl (by decide))).1

/-- C7: when every validation passes — non-empty granule-aligned range
inside the protected region, state EMPTY or RAM — the RIPAS set handler
records range/state/flags on the execution context, range/state and the
RIPAS-change exit reason on the run record, and puts the success code in
`ret[0]`, leaving the registers unchanged. -/
theorem set_ripas_state_accepts_valid (ext : Ext) (regs : Regs)
    (rec : Rec) (run : Run) (s e g3 fl : Nat)
    (h1 : get_reg regs 1 = Except.ok s) (h2 : get_reg regs 2 = Except.ok e)
    (h3 : get_reg regs 3 = Except.ok g3) (h4 : get_reg regs 4 = Except.ok fl)
    (hgood : s < e ∧ is_granule_aligned s = true ∧ is_granule_aligned e = true
      ∧ is_ripas_valid (g3 % 256) = true
      ∧ ext.is_protected_ipa s rec.ipa_bits = true
      ∧ ext.is_protected_ipa (e - 1) rec.ipa_bits = true) :
    set_ripas_state ext regs rec run
      = Except.ok (regs, rec.set_ripas s e (g3 % 256) fl,
          (run.set_exit_reason rmiEXIT_RIPAS_CHANGE).set_ripas s e (g3 % 256),
          rmiSUCCESS)
    ∧ (rec.set_ripas s e (g3 % 256) fl).ripas_addr = s
    ∧ (rec.set_ripas s e (g3 % 256) fl).ripas_end = e
    ∧ (rec.set_ripas s e (g3 % 256) fl).ripas_state = g3 % 256
    ∧ (rec.set_ripas s e (g3 % 256) fl).ripas_flags = fl
    ∧ ((run.set_exit_reason rmiEXIT_RIPAS_CHANGE).set_ripas
        s e (g3 % 256)).exit_reason = rmiEXIT_RIPAS_CHANGE := by
  obtain ⟨hlt, ha1, ha2, hv, hp1, hp2⟩ := hgood
  have hle : ¬ e ≤ s := by omega
  refine ⟨?_, rfl, rfl, rfl, rfl, rfl⟩
  simp [set_ripas_state, h1, h2, h3, h4, hle, ha1, ha2, hv, hp1, hp2,
    Bind.bind, Except.bind, Pure.pure, Except.pure]

/-- C7 witness: the request [4096, 8192) for state RAM with permissive
validators is accepted and recorded. -/
theorem set_ripas_state_accepts_valid_witness :
    set_ripas_state extAccept regsValidSet recBase runBase
      = Except.ok (regsValidSet, recBase.set_ripas 4096 8192 1 0,
          (runBase.set_exit_reason rmiEXIT_RIPAS_CHANGE).set_ripas 4096 8192 1,
          rmiSUCCESS) :=
  (set_ripas_state_accepts_valid extAccept regsValidSet recBase runBase
    4096 8192 1 0 rfl rfl rfl rfl
    ⟨by decide, rfl, rfl, by decide, rfl, rfl⟩).1

/-- C8: when the page address read from register 1 fails IPA validation,
the RIPAS get handler returns `Ok` with `ret[0]` the REC-enter success
code; when register 0 is writable it now holds the input-error code, and
when the write fails the registers are unchanged — the call succeeds
either way. -/
theorem get_ripas_state_invalid_ipa (ext : Ext) (regs : Regs) (rec : Rec)
    (p : Nat) (h1 : get_reg regs 1 = Except.ok p)
    (hbad : ext.validate_ipa_ok p rec.ipa_bits = false) :
    (get_ripas_state ext regs rec).isOk = true
    ∧ ∀ regs' ret0, get_ripas_state ext regs rec = Except.ok (regs', ret0) →
        ret0 = rmiSUCCESS_REC_ENTER
        ∧ (regs.writable 0 = true → regs'.val 0 = rsiERROR_INPUT)
        ∧ (regs.writable 0 = false → regs' = regs) := by
  cases hw : regs.writable 0 <;>
    simp_all [get_ripas_state, set_reg, h1, hbad, Bind.bind, Except.bind,
      Pure.pure, Except.pure, Except.isOk, Except.toBool]

/-- C8 witness: with a rejecting validator the call succeeds both on a
writable register file and on one where every register write fails. -/
theorem get_ripas_state_invalid_ipa_witness :
    (get_ripas_state extReject regsZero recBase).isOk = true
    ∧ (get_ripas_state extReject regsReadOnly recBase).isOk = true :=
  ⟨(get_ripas_state_invalid_ipa extReject regsZero recBase 0 rfl rfl).1,
    (get_ripas_state_invalid_ipa extReject regsReadOnly recBase 0 rfl rfl).1⟩

/-- C9: with a non-zero pending end address, `complete_ripas` writes the
success code into register 0, the pending start address into register 1,
and into register 2 the value 1 exactly when the run record's entry
flags contain the RIPAS-response bit (0 otherwise), then clears the
pending range/state/flags; with no pending range it writes no registers
and changes no state. -/
theorem complete_ripas_spec (regs : Regs) (rec : Rec) (run : Run)
    (h0 : regs.writable 0 = true) (h1 : regs.writable 1 = true)
    (h2 : regs.writable 2 = true) :
    (rec.ripas_end ≠ 0 →
      (complete_ripas regs rec run).isOk = true
      ∧ ∀ regs' rec', complete_ripas regs rec run = Except.ok (regs', rec') →
          rec' = rec.set_ripas 0 0 0 0
          ∧ regs'.val 0 = rsiSUCCESS
          ∧ regs'.val 1 = rec.ripas_addr
          ∧ regs'.val 2
            = (if Nat.land run.entry_flags REC_ENTRY_FLAG_RIPAS_RESPONSE != 0
               then 1 else 0)
          ∧ (∀ j, 2 < j → regs'.val j = regs.val j))
    ∧ (rec.ripas_end = 0 →
      complete_ripas regs rec run = Except.ok (regs, rec)) := by
  constructor
  · intro hne
    have hpos : rec.ripas_end > 0 := by omega
    have hrun : complete_ripas regs rec run = Except.ok
        ({ regs with val := fun j =>
            if j = 2 then
              (if Nat.land run.entry_flags REC_ENTRY_FLAG_RIPAS_RESPONSE != 0
               then 1 else 0)
            else if j = 1 then rec.ripas_addr
            else if j = 0 then rsiSUCCESS
            else regs.val j },
          rec.set_ripas 0 0 0 0) := by
      cases hresp : (Nat.land run.entry_flags REC_ENTRY_FLAG_RIPAS_RESPONSE != 0) <;>
        simp [complete_ripas, set_reg, h0, h1, h2, hresp, hpos,
          Bind.bind, Except.bind, Pure.pure, Except.pure]
    refine ⟨by simp [hrun, Except.isOk, Except.toBool], ?_⟩
    intro regs' rec' hout
    rw [hrun] at hout
    simp only [Except.ok.injEq, Prod.mk.injEq] at hout
    obtain ⟨hregs, hrec⟩ := hout
    subst hregs
    subst hrec
    refine ⟨rfl, by simp, by simp, by simp, ?_⟩
    intro j hj
    have hne2 : j ≠ 2 := by omega
    have hne1 : j ≠ 1 := by omega
    have hne0 : j ≠ 0 := by omega
    simp [hne2, hne1, hne0]
  · intro hz
    simp [complete_ripas, hz, Pure.pure, Except.pure, Bind.bind, Except.bind]

/-- C9 witness: with a pending range [4096, 8192) the call succeeds, and
with no pending range the state is returned unchanged. -/
theorem complete_ripas_spec_witness :
    (complete_ripas regsZero recPending runBase).isOk = true
    ∧ complete_ripas regsZero recBase runBase = Except.ok (regsZero, recBase) :=
  ⟨((complete_ripas_spec regsZero recPending runBase rfl rfl rfl).1
      (by decide)).1,
    (complete_ripas_spec regsZero recBase runBase rfl rfl rfl).2 rfl⟩

end Rmm.Ripas
